import Mathlib

/-!
Verification of the natural-language specification of `mfabrik.zoho`
against a shallow embedding of `src/mfabrik/zoho/core.py`.

The embedding is translated directly from the source.  HTTP transport is
external I/O: functions that in Python read a response over the network
here take the response body as an argument.  Python `bytes` values are
modelled by the string they decode to (UTF-8 encoding is injective), and
parsed XML/JSON documents are modelled by element trees and JSON values,
since the XML/JSON parsers themselves are external libraries.
-/

/-- Python exceptions raised by the embedded code paths: the domain
exception `ZohoException` (whose single argument may be a string or
`None`), `KeyError` from `dict[k]`, `ValueError` from tuple unpacking,
and `AttributeError` from reading an attribute that was never set. -/
inductive PyError where
  | zohoException (msg : Option String)
  | keyError (key : String)
  | valueError (msg : String)
  | attributeError (attr : String)
  deriving DecidableEq

/-- Python values that occur as caller-supplied request parameters
(strings, integers, booleans); `core.py` stringifies them with `str()`. -/
inductive PyVal where
  | str (s : String)
  | int (n : Int)
  | bool (b : Bool)
  deriving DecidableEq

/-- A Python `bytes` object, modelled by the string it UTF-8 encodes. -/
structure PyBytes where
  data : String
  deriving DecidableEq

/-- Python `str(value)` for the parameter values above (source line 276). -/
def pyStr : PyVal → String
  | .str s => s
  | .int n => toString n
  | .bool b => if b then "True" else "False"

/-- A Python dict with string keys and parameter values. -/
abbrev Dict := List (String × PyVal)

/-- A dict of stringified-and-encoded parameters, as built by `stringify`. -/
abbrev SentDict := List (String × PyBytes)

/-- The dict produced by `_parse_ticket_response` (string keys and values). -/
abbrev TDict := List (String × String)

/-- First-match lookup in an insertion-ordered dict (Python `d.get(k)`). -/
def dlookup {α β : Type} [DecidableEq α] : List (α × β) → α → Option β
  | [], _ => none
  | (k, v) :: rest, q => if k = q then some v else dlookup rest q

/-- Python `d[k] = v`: update the value in place when the key is present,
otherwise append the new pair at the end (insertion order). -/
def dictSet {α β : Type} [DecidableEq α] : List (α × β) → α → β → List (α × β)
  | [], k, v => [(k, v)]
  | (k0, v0) :: rest, k, v =>
    if k0 = k then (k0, v) :: rest else (k0, v0) :: dictSet rest k v

/-- `stringify(params)` from source lines 272-278: a new dict in which
every value is `str(value).encode()`. -/
def stringify (params : Dict) : SentDict :=
  params.map (fun kv => (kv.1, PyBytes.mk (pyStr kv.2)))

theorem dlookup_dictSet_self {α β : Type} [DecidableEq α]
    (d : List (α × β)) (k : α) (v : β) :
    dlookup (dictSet d k v) k = some v := by
  induction d with
  | nil => simp [dictSet, dlookup]
  | cons hd tl ih =>
    obtain ⟨k0, v0⟩ := hd
    by_cases h : k0 = k
    · subst h
      simp [dictSet, dlookup]
    · simp [dictSet, dlookup, h, ih]

theorem dlookup_dictSet_ne {α β : Type} [DecidableEq α]
    (d : List (α × β)) (k q : α) (v : β) (h : q ≠ k) :
    dlookup (dictSet d k v) q = dlookup d q := by
  induction d with
  | nil =>
    simp [dictSet, dlookup]
    intro h2
    exact absurd h2.symm h
  | cons hd tl ih =>
    obtain ⟨k0, v0⟩ := hd
    by_cases hk : k0 = k
    · subst hk
      have hq : ¬ k0 = q := fun hc => h (hc.symm ▸ rfl)
      simp [dictSet, dlookup, hq]
    · by_cases hq : k0 = q
      · subst hq
        simp [dictSet, dlookup, hk]
      · simp [dictSet, dlookup, hk, hq, ih]

theorem dlookup_stringify (d : Dict) (k : String) :
    dlookup (stringify d) k = (dlookup d k).map (fun v => PyBytes.mk (pyStr v)) := by
  induction d with
  | nil => simp [stringify, dlookup]
  | cons hd tl ih =>
    obtain ⟨k0, v0⟩ := hd
    by_cases h : k0 = k
    · subst h
      simp [stringify, dlookup]
    · simpa [stringify, dlookup, h] using ih

/-- Python `text.split(sep)` for a one-character separator, on character
lists: split at every occurrence, keeping empty pieces. -/
def pySplitList (sep : Char) : List Char → List (List Char)
  | [] => [[]]
  | c :: cs =>
    if c = sep then [] :: pySplitList sep cs
    else (c :: (pySplitList sep cs).headD []) :: (pySplitList sep cs).tail

/-- Python `s.split(sep)` for a one-character separator string. -/
def pySplit (sep : Char) (s : String) : List String :=
  (pySplitList sep s.toList).map (fun l => String.mk l)

theorem pySplitList_length (sep : Char) (l : List Char) :
    (pySplitList sep l).length = l.count sep + 1 := by
  induction l with
  | nil => simp [pySplitList]
  | cons c cs ih =>
    by_cases h : c = sep
    · simp [pySplitList, h, ih, List.count_cons]
    · simp [pySplitList, h, List.count_cons]
      omega

theorem pySplit_length (sep : Char) (s : String) :
    (pySplit sep s).length = s.toList.count sep + 1 := by
  simp [pySplit, pySplitList_length]

/-- Python `line.startswith("#")`: the first character is `#`. -/
def startsWithHash (s : String) : Bool :=
  match s.toList with
  | c :: _ => c = '#'
  | [] => false

/-- Python `line.strip() == ""`: every character of the line is
whitespace (so stripping leaves the empty string). -/
def isBlank (s : String) : Bool :=
  s.toList.all (fun c => c.isWhitespace)

/-- `Connection._parse_ticket_response` loop body over the list of lines
(source lines 140-159).  `data` is the whole body, used in the error
message; `out` accumulates the output dict.  A comment line (leading
`#`) or a blank line is skipped; a line without `=` raises the domain
exception; `key, value = line.split("=")` unpacks exactly two pieces and
raises `ValueError` when the split yields more. -/
def parseLines (data : String) : List String → TDict → Except PyError TDict
  | [], out => .ok out
  | line :: rest, out =>
    if startsWithHash line then parseLines data rest out
    else if isBlank line then parseLines data rest out
    else if '=' ∈ line.toList then
      match pySplit '=' line with
      | [k, v] => parseLines data rest (dictSet out k v)
      | _ => .error (.valueError "too many values to unpack (expected 2)")
    else .error (.zohoException (some ("Bad ticket data:" ++ data)))

/-- The newline character, separator of `data.split("\n")`. -/
def newlineChar : Char := Char.ofNat 10

/-- `Connection._parse_ticket_response` (source lines 132-159): split the
body on newlines and fold the loop body over the lines. -/
def parse_ticket_response (data : String) : Except PyError TDict :=
  parseLines data (pySplit newlineChar data) []

/-- The state of a `Connection` object (source lines 49-91).  Optional
fields model Python attributes that `__init__` sets only conditionally
(`none` means the attribute is absent, so reading it raises
`AttributeError`).  `service_name` models the value returned by the
subclass-implemented `get_service_name`; the abstract base class itself
raises `NotImplementedError`, so claims about `open()` concern concrete
subclasses.  `parameters` and `parameters_encoded` are the attributes
that `do_call` stores on lines 206-207 and `check_successful_xml` reads
on lines 236-237. -/
structure Connection where
  service_name : String
  username : Option String
  password : Option String
  authtoken : Option String
  auth_url : String
  scope : String
  ticket : Option String
  parameters : Option SentDict
  parameters_encoded : Option String
  deriving DecidableEq

/-- The keyword arguments accepted by `Connection.__init__`; `none`
means the keyword was not supplied (or was supplied as `None`). -/
structure ConnKwargs where
  username : Option String := none
  password : Option String := none
  authtoken : Option String := none
  auth_url : Option String := none
  scope : Option String := none
  deriving DecidableEq

/-- `Connection.__init__` (source lines 56-91).  `username`/`password`
are both stored only when both are not `None`; `authtoken` is stored
only when truthy (so the empty string is not stored); `auth_url`
defaults to the Zoho login URL; a missing (`None`) `scope` raises
`ZohoException("No Scope")`; `ticket` starts as `None`.  `sn` is the
service name supplied by the concrete subclass. -/
def Connection.init (sn : String) (kw : ConnKwargs) : Except PyError Connection :=
  match kw.scope with
  | none => .error (.zohoException (some "No Scope"))
  | some s =>
    .ok {
      service_name := sn
      username := match kw.username, kw.password with
        | some u, some _ => some u
        | _, _ => none
      password := match kw.username, kw.password with
        | some _, some p => some p
        | _, _ => none
      authtoken := match kw.authtoken with
        | some t => if t = "" then none else some t
        | none => none
      auth_url := kw.auth_url.getD "https://accounts.zoho.com/login"
      scope := s
      ticket := none
      parameters := none
      parameters_encoded := none }

/-- Reading a Python attribute that may be absent: `AttributeError` when
it was never set. -/
def getAttr {α : Type} (v : Option α) (name : String) : Except PyError α :=
  match v with
  | some x => .ok x
  | none => .error (.attributeError name)

/-- Python `d[k]` on the parsed ticket dict: `KeyError` when absent. -/
def dictGet (d : TDict) (k : String) : Except PyError String :=
  match dlookup d k with
  | some v => .ok v
  | none => .error (.keyError k)

/-- `Connection._create_ticket` (source lines 101-130), with the HTTP
POST to the login URL modelled as external I/O whose response is the
argument `body`.  The request dict literal evaluates
`self.get_service_name()`, `self.username` and `self.password` in that
order (lines 110-115); then the body is parsed and the parsed fields
are checked: a `WARNING` other than `"null"` raises
`ZohoException("Could not auth:" + warning)`, a `RESULT` other than
`"TRUE"` raises `ZohoException("Ticket result was not valid")`, and
otherwise the `TICKET` field is returned.  Each `data[...]` access
raises `KeyError` when the field is absent. -/
def create_ticket (conn : Connection) (body : String) : Except PyError String :=
  match conn.username with
  | none => .error (.attributeError "username")
  | some _ =>
    match conn.password with
    | none => .error (.attributeError "password")
    | some _ =>
      match parse_ticket_response body with
      | .error e => .error e
      | .ok data =>
        match dlookup data "WARNING" with
        | none => .error (.keyError "WARNING")
        | some w =>
          if w ≠ "null" then .error (.zohoException (some ("Could not auth:" ++ w)))
          else
            match dlookup data "RESULT" with
            | none => .error (.keyError "RESULT")
            | some r =>
              if r ≠ "TRUE" then .error (.zohoException (some "Ticket result was not valid"))
              else
                match dlookup data "TICKET" with
                | none => .error (.keyError "TICKET")
                | some t => .ok t

/-- `Connection.open` (source lines 97-99); named `openSession` because
`open` is a Lean keyword.  `self.ticket = self._create_ticket()` stores
the ticket only when `_create_ticket` returns; when it raises, the
object is unchanged and the exception propagates (second component). -/
def Connection.openSession (conn : Connection) (body : String) :
    Connection × Option PyError :=
  match create_ticket conn body with
  | .ok t => ({ conn with ticket := some t }, none)
  | .error e => (conn, some e)

/-- A heap of Python dict objects, indexed by object identity, used to
model mutation for `do_call`. -/
abbrev Heap := List Dict

/-- The dict object stored at index `i`. -/
def heapGet (h : Heap) (i : Nat) : Dict := (h[i]?).getD []

/-- In-place `d[k] = v` on the dict object at index `i`. -/
def heapWrite (h : Heap) (i : Nat) (k : String) (v : PyVal) : Heap :=
  h.set i (dictSet (heapGet h i) k v)

/-- `Connection.do_call` (source lines 185-216) up to the HTTP POST,
which is external I/O.  `ref` is the identity of the caller-supplied
parameter dict in the heap `h`.  `parameters = parameters.copy()`
allocates a fresh object (index `h.length`); every later
`parameters[...] = ...` mutates only that fresh object.  `ticket` is
added only when `self.ticket` is not `None`; reading `self.authtoken`
raises `AttributeError` when the attribute was never set; finally the
dict is passed through `stringify`, and the resulting stringified
parameter set (the one form-encoded and POSTed on lines 207-208) is
returned together with the final heap. -/
def Connection.do_call (conn : Connection) (h : Heap) (ref : Nat) :
    Heap × Except PyError SentDict :=
  let pref := h.length
  let h1 := h ++ [heapGet h ref]
  let h2 := match conn.ticket with
    | some t => heapWrite h1 pref "ticket" (.str t)
    | none => h1
  match conn.authtoken with
  | none => (h2, .error (.attributeError "authtoken"))
  | some a =>
    let h3 := heapWrite h2 pref "authtoken" (.str a)
    let h4 := heapWrite h3 pref "scope" (.str conn.scope)
    (h4, .ok (stringify (heapGet h4 pref)))

/-- An XML element as produced by `xml.etree.ElementTree.fromstring`
(the parser itself is an external library): tag, attributes, text, and
child elements in document order. -/
inductive XElem where
  | mk (tag : String) (attrib : List (String × String))
       (text : Option String) (children : List XElem)

/-- The tag of an element. -/
def XElem.tag : XElem → String
  | .mk t _ _ _ => t

/-- The attribute dict of an element. -/
def XElem.attrib : XElem → List (String × String)
  | .mk _ a _ _ => a

/-- The text of an element (`None` when absent). -/
def XElem.text : XElem → Option String
  | .mk _ _ tx _ => tx

/-- The child elements, in document order. -/
def XElem.children : XElem → List XElem
  | .mk _ _ _ c => c

/-- `element.findall(tag)`: the DIRECT children with the given tag, in
document order (ElementTree path `tag` matches only children). -/
def findall (e : XElem) (t : String) : List XElem :=
  e.children.filter (fun c => c.tag == t)

/-- `element.get(name)`: attribute lookup, `None` when absent. -/
def XElem.get (e : XElem) (name : String) : Option String :=
  dlookup e.attrib name

/-- The error loop of `Connection.check_successful_xml` (source lines
235-242) over `root.findall("error")`.  For each error element the code
first reads `self.parameters` and `self.parameters_encoded` (raising
`AttributeError` when `do_call` has never set them), then raises
`ZohoException(message.text)` at the first `message` child; an error
element without `message` children is passed over. -/
def checkErrors (conn : Connection) : List XElem → Except PyError Bool
  | [] => .ok true
  | err :: rest =>
    match conn.parameters with
    | none => .error (.attributeError "parameters")
    | some _ =>
      match conn.parameters_encoded with
      | none => .error (.attributeError "parameters_encoded")
      | some _ =>
        match findall err "message" with
        | [] => checkErrors conn rest
        | m :: _ => .error (.zohoException m.text)

/-- `Connection.check_successful_xml` (source lines 218-242), on the
parsed response tree. -/
def Connection.check_successful_xml (conn : Connection) (root : XElem) :
    Except PyError Bool :=
  checkErrors conn (findall root "error")

/-- A record extracted by `get_inserted_records`: a dict whose keys are
`FL` `val` attributes (`None` when the attribute is absent) and whose
values are the elements' text. -/
abbrev RDict := List (Option String × Option String)

/-- `Connection.get_inserted_records` (source lines 256-269), on the
parsed response tree: for every direct `result` child of the root, for
every direct `recorddetail` child of it, build a dict from the direct
`FL` children mapping `fl.get("val")` to `fl.text`. -/
def get_inserted_records (root : XElem) : List RDict :=
  (findall root "result").flatMap (fun result =>
    (findall result "recorddetail").map (fun rd =>
      (findall rd "FL").foldl (fun acc fl => dictSet acc (fl.get "val") fl.text) []))

/-- Modelled from the amended specification sentence for
`get_inserted_records`: the record of one `recorddetail` element maps,
for each direct child tagged `FL` in document order, that child's `val`
attribute to its text. -/
def spec_record (rd : XElem) : RDict :=
  (rd.children.filter (fun c => decide (c.tag = "FL"))).foldl
    (fun acc fl => dictSet acc (dlookup fl.attrib "val") fl.text) []

/-- Modelled from the amended specification sentence for
`get_inserted_records`: one record per `recorddetail` element that is a
direct child of a `result` element that is a direct child of the root,
in document order.  Written independently of `get_inserted_records`, to
be compared with it. -/
def spec_inserted_records (root : XElem) : List RDict :=
  ((root.children.filter (fun c => decide (c.tag = "result"))).map (fun result =>
    (result.children.filter (fun c => decide (c.tag = "recorddetail"))).map
      spec_record)).flatten

/-- A JSON value as produced by `json.loads` (the parser itself is an
external library).  Numbers are modelled as integers, which covers the
responses the code handles. -/
inductive JVal where
  | null
  | bool (b : Bool)
  | num (n : Int)
  | str (s : String)
  | arr (l : List JVal)
  | obj (m : List (String × JVal))

/-- Python truthiness of a loaded JSON value: `None`, `False`, `0`,
`""`, `[]` and `\x7b\x7d` are falsy, everything else truthy. -/
def truthy : JVal → Bool
  | .null => false
  | .bool b => b
  | .num n => n != 0
  | .str s => s != ""
  | .arr l => !l.isEmpty
  | .obj m => !m.isEmpty

mutual
/-- Python `repr` of a loaded JSON value (`None`, `True`, decimal
integers, single-quoted strings, bracketed lists, braced dicts). -/
def pyRepr : JVal → String
  | .null => "None"
  | .bool b => if b then "True" else "False"
  | .num n => toString n
  | .str s => "\x27" ++ s ++ "\x27"
  | .arr l => "[" ++ pyReprSeq l ++ "]"
  | .obj m => "\x7b" ++ pyReprPairs m ++ "\x7d"

/-- Comma-separated `repr`s of list elements. -/
def pyReprSeq : List JVal → String
  | [] => ""
  | [v] => pyRepr v
  | v :: rest => pyRepr v ++ ", " ++ pyReprSeq rest

/-- Comma-separated `repr(key): repr(value)` pairs of a dict. -/
def pyReprPairs : List (String × JVal) → String
  | [] => ""
  | [(k, v)] => "\x27" ++ k ++ "\x27: " ++ pyRepr v
  | (k, v) :: rest => "\x27" ++ k ++ "\x27: " ++ pyRepr v ++ ", " ++ pyReprPairs rest
end

/-- Python `str(value)` for a loaded JSON value: the string itself for a
string, `repr` otherwise. -/
def pyToStr (v : JVal) : String :=
  match v with
  | .str s => s
  | _ => pyRepr v

/-- `decode_json` (source lines 281-298), on the loaded JSON value.
`data.get("response", None)` requires the top level to be a dict
(anything else raises `AttributeError`); a falsy `response` (absent,
`None`, empty, zero, ...) skips the check and the data is returned
unchanged; a truthy `response` must itself be a dict, whose `error`
member, when present and truthy, raises
`ZohoException("Error while calling JSON Zoho api:" + str(error))`;
otherwise the loaded data is returned unchanged. -/
def decode_json (data : JVal) : Except PyError JVal :=
  match data with
  | .obj m =>
    (match dlookup m "response" with
     | none => .ok data
     | some r =>
       if truthy r then
         match r with
         | .obj rm =>
           (match dlookup rm "error" with
            | none => .ok data
            | some e =>
              if truthy e then
                .error (.zohoException
                  (some ("Error while calling JSON Zoho api:" ++ pyToStr e)))
              else .ok data)
         | _ => .error (.attributeError "get")
       else .ok data)
  | _ => .error (.attributeError "get")

theorem heapGet_append (h : Heap) (d : Dict) (i : Nat) (hi : i < h.length) :
    heapGet (h ++ [d]) i = heapGet h i := by
  simp [heapGet, List.getElem?_append_left hi]

theorem heapGet_concat_self (h : Heap) (d : Dict) :
    heapGet (h ++ [d]) h.length = d := by
  simp [heapGet]

theorem heapWrite_length (h : Heap) (i : Nat) (k : String) (v : PyVal) :
    (heapWrite h i k v).length = h.length := by
  simp [heapWrite]

theorem heapGet_write_ne (h : Heap) (i j : Nat) (k : String) (v : PyVal)
    (hne : j ≠ i) : heapGet (heapWrite h i k v) j = heapGet h j := by
  simp [heapGet, heapWrite, List.getElem?_set_ne (fun hc => hne hc.symm)]

theorem heapGet_write_self (h : Heap) (i : Nat) (k : String) (v : PyVal)
    (hi : i < h.length) : heapGet (heapWrite h i k v) i = dictSet (heapGet h i) k v := by
  simp [heapGet, heapWrite, List.getElem?_set_self hi]

/-- A username/password connection of a concrete subclass (no
`authtoken` attribute), as `__init__` leaves it before `open()`. -/
def connUP : Connection :=
  { service_name := "ZohoCRM", username := some "user", password := some "pw",
    authtoken := none, auth_url := "https://accounts.zoho.com/login",
    scope := "crmapi", ticket := none, parameters := none,
    parameters_encoded := none }

/-- An authtoken connection of a concrete subclass that has already made
a call (its `parameters` attributes are set) and holds a ticket. -/
def connTok : Connection :=
  { service_name := "ZohoCRM", username := none, password := none,
    authtoken := some "token123", auth_url := "https://accounts.zoho.com/login",
    scope := "crmapi", ticket := some "tick", parameters := some [],
    parameters_encoded := some "" }

/-- C9, counterexample: passing `scope=""` (empty string, which is not
`None`) constructs an instance whose scope IS the empty string, so the
invariant that no constructed instance has an empty scope is false. -/
theorem c9_empty_scope_cex :
    ∃ c, Connection.init "ZohoCRM" ⟨none, none, none, none, some ""⟩ = .ok c ∧
      c.scope = "" :=
  ⟨_, rfl, rfl⟩

/-- C9 (amended): construction fails with the domain error `"No Scope"`
exactly when the `scope` keyword is absent (`None`); otherwise the
constructed instance stores the supplied scope string unchanged (which
may be empty). -/
theorem c9_scope_amended (sn : String) (kw : ConnKwargs) :
    (kw.scope = none →
      Connection.init sn kw = .error (.zohoException (some "No Scope"))) ∧
    (∀ s, kw.scope = some s → ∃ c, Connection.init sn kw = .ok c ∧ c.scope = s) := by
  constructor
  · intro hs
    simp [Connection.init, hs]
  · intro s hs
    obtain ⟨u, p, a, url, sc⟩ := kw
    cases hs
    exact ⟨_, rfl, rfl⟩

/-- C9, witness for the amended theorem at concrete inputs: no scope
keyword fails, `scope="crmapi"` succeeds and is stored. -/
theorem c9_scope_witness :
    Connection.init "ZohoCRM" ⟨none, none, none, none, none⟩ =
      .error (.zohoException (some "No Scope")) ∧
    ∃ c, Connection.init "ZohoCRM" ⟨none, none, none, none, some "crmapi"⟩ =
      .ok c ∧ c.scope = "crmapi" :=
  ⟨(c9_scope_amended "ZohoCRM" ⟨none, none, none, none, none⟩).1 rfl,
   (c9_scope_amended "ZohoCRM" ⟨none, none, none, none, some "crmapi"⟩).2 "crmapi" rfl⟩

/-- C5: when the parsed `WARNING` field of the response body is not the
string `"null"`, `open()` leaves the connection (in particular its
ticket field) unchanged and raises the domain error
`"Could not auth:" + warning`, whose message contains the warning text.
The connection is one of a concrete subclass with username and password
attributes set, as in the login flow the claim describes. -/
theorem c5_open_warning (conn : Connection) (body : String) (d : TDict)
    (w u p : String) (hu : conn.username = some u) (hp : conn.password = some p)
    (hparse : parse_ticket_response body = .ok d)
    (hw : dlookup d "WARNING" = some w) (hne : w ≠ "null") :
    (conn.openSession body).1 = conn ∧
    (conn.openSession body).2 =
      some (.zohoException (some ("Could not auth:" ++ w))) ∧
    ∃ pre suf, "Could not auth:" ++ w = pre ++ w ++ suf := by
  have hct : create_ticket conn body =
      .error (.zohoException (some ("Could not auth:" ++ w))) := by
    simp [create_ticket, hu, hp, hparse, hw, hne]
  refine ⟨?_, ?_, "Could not auth:", "", by simp⟩
  · simp [Connection.openSession, hct]
  · simp [Connection.openSession, hct]

/-- C5, witness: a concrete body whose `WARNING` is not `"null"`. -/
theorem c5_open_warning_witness :
    (connUP.openSession "WARNING=bad").1 = connUP ∧
    (connUP.openSession "WARNING=bad").2 =
      some (.zohoException (some ("Could not auth:" ++ "bad"))) ∧
    ∃ pre suf, "Could not auth:" ++ "bad" = pre ++ "bad" ++ suf :=
  c5_open_warning connUP "WARNING=bad" [("WARNING", "bad")] "bad" "user" "pw"
    rfl rfl rfl rfl (by decide)

/-- C1, counterexample: the body `"WARNING=null\nRESULT=TRUE"` parses to
fields satisfying `WARNING = "null"` and `RESULT = "TRUE"`, yet `open()`
raises (`KeyError` on the absent `TICKET` field) instead of not raising,
so the claim as stated is false. -/
theorem c1_ticket_missing_cex :
    parse_ticket_response "WARNING=null\nRESULT=TRUE" =
      .ok [("WARNING", "null"), ("RESULT", "TRUE")] ∧
    (connUP.openSession "WARNING=null\nRESULT=TRUE").2 =
      some (.keyError "TICKET") :=
  ⟨rfl, rfl⟩

/-- C1 (amended): for every response body whose parsed fields satisfy
`WARNING = "null"` and `RESULT = "TRUE"` AND contain a `TICKET` field,
`open()` does not raise and stores that `TICKET` value as the session
ticket.  The connection is one of a concrete subclass with username and
password attributes set, as in the login flow the claim describes. -/
theorem c1_open_success_amended (conn : Connection) (body : String) (d : TDict)
    (t u p : String) (hu : conn.username = some u) (hp : conn.password = some p)
    (hparse : parse_ticket_response body = .ok d)
    (hw : dlookup d "WARNING" = some "null")
    (hr : dlookup d "RESULT" = some "TRUE")
    (ht : dlookup d "TICKET" = some t) :
    conn.openSession body = ({ conn with ticket := some t }, none) := by
  have hct : create_ticket conn body = .ok t := by
    simp [create_ticket, hu, hp, hparse, hw, hr, ht]
  simp [Connection.openSession, hct]

/-- C1, witness: a complete successful body stores its ticket. -/
theorem c1_open_success_witness :
    connUP.openSession "WARNING=null\nRESULT=TRUE\nTICKET=abc" =
      ({ connUP with ticket := some "abc" }, none) :=
  c1_open_success_amended connUP "WARNING=null\nRESULT=TRUE\nTICKET=abc"
    [("WARNING", "null"), ("RESULT", "TRUE"), ("TICKET", "abc")]
    "abc" "user" "pw" rfl rfl rfl rfl rfl rfl

/-- C6: `do_call` never mutates the caller-supplied parameter dict: the
dict object the caller passed in (any valid heap reference) holds the
same value after the call, on every path (ticket present or not,
authtoken attribute present or not), because every write targets the
fresh copy allocated at index `h.length`. -/
theorem c6_do_call_frame (conn : Connection) (h : Heap) (ref : Nat)
    (href : ref < h.length) :
    heapGet (conn.do_call h ref).1 ref = heapGet h ref := by
  have hne : ref ≠ h.length := Nat.ne_of_lt href
  simp only [Connection.do_call]
  cases hat : conn.authtoken with
  | none =>
    cases hti : conn.ticket with
    | none =>
      simp [heapGet_append h _ ref href]
    | some t =>
      simp [heapGet_write_ne _ _ _ _ _ hne, heapGet_append h _ ref href]
  | some a =>
    cases hti : conn.ticket with
    | none =>
      simp [heapGet_write_ne _ _ _ _ _ hne, heapGet_append h _ ref href]
    | some t =>
      simp [heapGet_write_ne _ _ _ _ _ hne, heapGet_append h _ ref href]

/-- C6, witness: a concrete one-entry heap. -/
theorem c6_do_call_frame_witness :
    heapGet (connTok.do_call [[("Leads", PyVal.str "x")]] 0).1 0 =
      heapGet [[("Leads", PyVal.str "x")]] 0 :=
  c6_do_call_frame connTok [[("Leads", PyVal.str "x")]] 0 (by decide)

/-- The parameter dict `do_call` builds and sends when the connection
has an `authtoken` attribute: the fresh copy of the caller dict,
with `ticket` added when a session ticket is present, then `authtoken`
and `scope`, all passed through `stringify`. -/
theorem do_call_sent (conn : Connection) (h : Heap) (ref : Nat) (a : String)
    (hat : conn.authtoken = some a) :
    (conn.do_call h ref).2 = .ok (stringify (dictSet (dictSet
      (match conn.ticket with
       | some t => dictSet (heapGet h ref) "ticket" (.str t)
       | none => heapGet h ref)
      "authtoken" (.str a)) "scope" (.str conn.scope))) := by
  have hlen1 : h.length < (h ++ [heapGet h ref]).length := by
    simp
  cases hti : conn.ticket with
  | none =>
    simp only [Connection.do_call, hat, hti]
    rw [heapGet_write_self _ _ _ _ (by simp [heapWrite_length]),
        heapGet_write_self _ _ _ _ (by simp),
        heapGet_concat_self]
  | some t =>
    simp only [Connection.do_call, hat, hti]
    rw [heapGet_write_self _ _ _ _
          (by simp [heapWrite_length]),
        heapGet_write_self _ _ _ _
          (by simp [heapWrite_length]),
        heapGet_write_self _ _ _ _ (by simp),
        heapGet_concat_self]

/-- C2 (amended): for every connection that has an `authtoken`
attribute, `do_call` builds and sends a fresh parameter set: looking up
any key in it gives the `str()`-and-encode of the caller's value for
that key, except that `authtoken` and `scope` are the connection's
values and `ticket` is the session ticket when one is present (when no
session ticket is present, a caller-supplied `ticket` value survives). -/
theorem c2_do_call_params_amended (conn : Connection) (h : Heap) (ref : Nat)
    (a : String) (hat : conn.authtoken = some a) :
    ∃ sent, (conn.do_call h ref).2 = .ok sent ∧
      dlookup sent "authtoken" = some (PyBytes.mk a) ∧
      dlookup sent "scope" = some (PyBytes.mk conn.scope) ∧
      (∀ t, conn.ticket = some t → dlookup sent "ticket" = some (PyBytes.mk t)) ∧
      (conn.ticket = none → dlookup sent "ticket" =
        (dlookup (heapGet h ref) "ticket").map (fun v => PyBytes.mk (pyStr v))) ∧
      (∀ k, k ≠ "ticket" → k ≠ "authtoken" → k ≠ "scope" →
        dlookup sent k =
          (dlookup (heapGet h ref) k).map (fun v => PyBytes.mk (pyStr v))) := by
  refine ⟨_, do_call_sent conn h ref a hat, ?_, ?_, ?_, ?_, ?_⟩
  · rw [dlookup_stringify, dlookup_dictSet_ne _ _ _ _ (by decide),
        dlookup_dictSet_self]
    rfl
  · rw [dlookup_stringify, dlookup_dictSet_self]
    rfl
  · intro t hti
    rw [dlookup_stringify, dlookup_dictSet_ne _ _ _ _ (by decide),
        dlookup_dictSet_ne _ _ _ _ (by decide), hti, dlookup_dictSet_self]
    rfl
  · intro hti
    rw [dlookup_stringify, dlookup_dictSet_ne _ _ _ _ (by decide),
        dlookup_dictSet_ne _ _ _ _ (by decide), hti]
  · intro k hk1 hk2 hk3
    rw [dlookup_stringify, dlookup_dictSet_ne _ _ _ _ hk3,
        dlookup_dictSet_ne _ _ _ _ hk2]
    cases hti : conn.ticket with
    | none => rfl
    | some t => rw [dlookup_dictSet_ne _ _ _ _ hk1]

/-- C2, counterexample: a connection constructed with username and
password only has no `authtoken` attribute, and `do_call` then raises
`AttributeError` instead of building any parameter set, so the claim
quantified over every connection is false. -/
theorem c2_no_authtoken_cex :
    connUP.authtoken = none ∧
    (connUP.do_call [[("Leads", PyVal.str "x")]] 0).2 =
      .error (.attributeError "authtoken") :=
  ⟨rfl, rfl⟩

/-- C2, witness for the amended theorem at a concrete connection, heap
and caller dict (integer and boolean values round-trip through
`str()`). -/
theorem c2_do_call_params_witness :
    ∃ sent, (connTok.do_call [[("count", PyVal.int 5), ("dup", PyVal.bool true)]] 0).2 =
        .ok sent ∧
      dlookup sent "authtoken" = some (PyBytes.mk "token123") ∧
      dlookup sent "scope" = some (PyBytes.mk connTok.scope) ∧
      (∀ t, connTok.ticket = some t → dlookup sent "ticket" = some (PyBytes.mk t)) ∧
      (connTok.ticket = none → dlookup sent "ticket" =
        (dlookup (heapGet [[("count", PyVal.int 5), ("dup", PyVal.bool true)]] 0)
          "ticket").map (fun v => PyBytes.mk (pyStr v))) ∧
      (∀ k, k ≠ "ticket" → k ≠ "authtoken" → k ≠ "scope" →
        dlookup sent k =
          (dlookup (heapGet [[("count", PyVal.int 5), ("dup", PyVal.bool true)]] 0)
            k).map (fun v => PyBytes.mk (pyStr v))) :=
  c2_do_call_params_amended connTok
    [[("count", PyVal.int 5), ("dup", PyVal.bool true)]] 0 "token123" rfl

theorem checkErrors_ok (conn : Connection) (l : List XElem) (ps : SentDict)
    (pe : String) (hp : conn.parameters = some ps)
    (hpe : conn.parameters_encoded = some pe)
    (hall : ∀ e ∈ l, findall e "message" = []) :
    checkErrors conn l = .ok true := by
  induction l with
  | nil => rfl
  | cons err rest ih =>
    have h1 : findall err "message" = [] := hall err (by simp)
    have h2 : checkErrors conn rest = .ok true :=
      ih (fun e he => hall e (by simp [he]))
    simp [checkErrors, hp, hpe, h1, h2]

theorem checkErrors_first_message (conn : Connection) (pre : List XElem)
    (err : XElem) (rest : List XElem) (m : XElem) (ms : List XElem)
    (ps : SentDict) (pe : String) (hp : conn.parameters = some ps)
    (hpe : conn.parameters_encoded = some pe)
    (hpre : ∀ e ∈ pre, findall e "message" = [])
    (hm : findall err "message" = m :: ms) :
    checkErrors conn (pre ++ err :: rest) = .error (.zohoException m.text) := by
  induction pre with
  | nil => simp [checkErrors, hp, hpe, hm]
  | cons e0 pre2 ih =>
    have h0 : findall e0 "message" = [] := hpre e0 (by simp)
    have h2 := ih (fun e he => hpre e (by simp [he]))
    simp [checkErrors, hp, hpe, h0, h2]

/-- C3 (amended): on a connection whose request-parameter attributes are
set (as after any `do_call`), `check_successful_xml` raises a domain
error carrying the text of the first `message` child of the first
`error` child of the root that has a `message` child, whenever some
direct `error` child has a direct `message` child; and it returns `True`
exactly when every direct `error` child of the root has no direct
`message` child (in particular also when error elements are present but
carry no message, and when error elements only occur nested deeper). -/
theorem c3_check_successful_xml_amended (conn : Connection) (root : XElem)
    (ps : SentDict) (pe : String) (hp : conn.parameters = some ps)
    (hpe : conn.parameters_encoded = some pe) :
    (∀ pre err rest m ms, findall root "error" = pre ++ err :: rest →
      (∀ e ∈ pre, findall e "message" = []) → findall err "message" = m :: ms →
      conn.check_successful_xml root = .error (.zohoException m.text)) ∧
    ((∀ e ∈ findall root "error", findall e "message" = []) →
      conn.check_successful_xml root = .ok true) := by
  constructor
  · intro pre err rest m ms hsplit hpre hm
    rw [Connection.check_successful_xml, hsplit]
    exact checkErrors_first_message conn pre err rest m ms ps pe hp hpe hpre hm
  · intro hall
    exact checkErrors_ok conn _ ps pe hp hpe hall

/-- The XML tree of the C3 counterexample: a direct `error` child with a
`code` but no `message`, plus an `error` element with a `message` nested
deeper (under `result`), as in
`<response><error><code>4</code></error>`
`<result><error><message>boom</message></error></result></response>`. -/
def tree3 : XElem :=
  .mk "response" [] none
    [.mk "error" [] none [.mk "code" [] (some "4") []],
     .mk "result" [] none
       [.mk "error" [] none [.mk "message" [] (some "boom") []]]]

/-- C3, counterexample: error elements exist under the root of `tree3`
(a direct one, and a nested one that even carries a message), yet
`check_successful_xml` raises nothing and returns `True`, so neither the
"raises whenever any error element exists" part nor the "returns true
iff no error elements exist" part of the claim holds. -/
theorem c3_error_without_message_cex :
    connTok.check_successful_xml tree3 = .ok true ∧
    (findall tree3 "error").length = 1 ∧
    (∃ r ∈ tree3.children, ∃ e2 ∈ r.children, e2.tag = "error" ∧
      ∃ msg ∈ e2.children, msg.tag = "message" ∧ msg.text = some "boom") := by
  refine ⟨rfl, rfl, ?_⟩
  refine ⟨.mk "result" [] none
    [.mk "error" [] none [.mk "message" [] (some "boom") []]], ?_,
    .mk "error" [] none [.mk "message" [] (some "boom") []], ?_, rfl,
    .mk "message" [] (some "boom") [], ?_, rfl, rfl⟩
  · simp [tree3, XElem.children]
  · simp [XElem.children]
  · simp [XElem.children]

/-- C3, witness for the amended theorem: a direct error child carrying a
message raises the domain error with that text. -/
theorem c3_check_successful_xml_witness :
    connTok.check_successful_xml
      (.mk "response" [] none
        [.mk "error" [] none
          [.mk "code" [] (some "4401") [],
           .mk "message" [] (some "bad value") []]]) =
      .error (.zohoException (some "bad value")) :=
  (c3_check_successful_xml_amended connTok
    (.mk "response" [] none
      [.mk "error" [] none
        [.mk "code" [] (some "4401") [],
         .mk "message" [] (some "bad value") []]]) [] "" rfl rfl).1
    [] (.mk "error" [] none
      [.mk "code" [] (some "4401") [],
       .mk "message" [] (some "bad value") []]) []
    (.mk "message" [] (some "bad value") []) [] rfl (by simp) rfl

/-- C7 (amended): `get_inserted_records` returns exactly the record list
described by the amended specification: one record per `recorddetail`
element that is a DIRECT child of a `result` element that is a direct
child of the root, in document order, each record mapping the `val`
attribute of each direct `FL` child to that element's text; it never
fails, and with no matching elements the list is empty. -/
theorem c7_get_inserted_records_amended (root : XElem) :
    get_inserted_records root = spec_inserted_records root := by
  have hpred : ∀ t : String, (fun c : XElem => c.tag == t) =
      (fun c : XElem => decide (c.tag = t)) := by
    intro t
    funext c
    by_cases h : c.tag = t
    · simp [h]
    · simp [h]
  simp only [get_inserted_records, spec_inserted_records, spec_record, findall,
    XElem.get, hpred, List.flatMap]
  rfl

/-- The XML tree of the C7 counterexample: a `recorddetail` element that
is nested under a `result` element but not as a direct child. -/
def tree7 : XElem :=
  .mk "response" [] none
    [.mk "result" [] none
      [.mk "row" [] none
        [.mk "recorddetail" [] none
          [.mk "FL" [("val", "Id")] (some "177376000000142007") []]]]]

/-- C7, counterexample: `tree7` has a `recorddetail` element nested
under a `result` element (through an intermediate `row` element), yet
`get_inserted_records` returns the empty sequence instead of one mapping
for it, so the claim quantified over nested elements is false. -/
theorem c7_nested_recorddetail_cex :
    get_inserted_records tree7 = [] ∧
    (∃ r ∈ findall tree7 "result", ∃ w ∈ r.children, ∃ rd ∈ w.children,
      rd.tag = "recorddetail" ∧
      ∃ fl ∈ rd.children, fl.get "val" = some "Id" ∧
        fl.text = some "177376000000142007") := by
  refine ⟨rfl, ?_⟩
  refine ⟨.mk "result" [] none
    [.mk "row" [] none
      [.mk "recorddetail" [] none
        [.mk "FL" [("val", "Id")] (some "177376000000142007") []]]], ?_,
    .mk "row" [] none
      [.mk "recorddetail" [] none
        [.mk "FL" [("val", "Id")] (some "177376000000142007") []]], ?_,
    .mk "recorddetail" [] none
      [.mk "FL" [("val", "Id")] (some "177376000000142007") []], ?_, rfl,
    .mk "FL" [("val", "Id")] (some "177376000000142007") [], ?_, rfl, rfl⟩
  · simp [tree7, findall, XElem.children, XElem.tag]
  · simp [XElem.children]
  · simp [XElem.children]
  · simp [XElem.children]

/-- C8 (amended): on a top-level JSON object, `decode_json` raises a
domain error if and only if the object has a `response` member that is a
TRUTHY object which itself has a TRUTHY `error` member; the raised error
embeds `str(error)`; when the `response` member is absent or falsy, or
its `error` member is absent or falsy, the parsed structure is returned
unchanged.  (A falsy `error` value such as `0`, `null` or an empty
object is present but raises nothing.) -/
theorem c8_decode_json_amended (m : List (String × JVal)) :
    ((∃ s, decode_json (.obj m) = .error (.zohoException s)) ↔
      (∃ rm e, dlookup m "response" = some (.obj rm) ∧
        truthy (.obj rm) = true ∧ dlookup rm "error" = some e ∧
        truthy e = true)) ∧
    (∀ rm e, dlookup m "response" = some (.obj rm) → truthy (.obj rm) = true →
      dlookup rm "error" = some e → truthy e = true →
      decode_json (.obj m) = .error (.zohoException
        (some ("Error while calling JSON Zoho api:" ++ pyToStr e)))) ∧
    ((∀ r, dlookup m "response" = some r → truthy r = false) →
      decode_json (.obj m) = .ok (.obj m)) ∧
    (∀ rm, dlookup m "response" = some (.obj rm) →
      (∀ e, dlookup rm "error" = some e → truthy e = false) →
      decode_json (.obj m) = .ok (.obj m)) := by
  refine ⟨?_, ?_, ?_, ?_⟩
  · constructor
    · intro ⟨s, hs⟩
      cases hr : dlookup m "response" with
      | none => simp [decode_json, hr] at hs
      | some r =>
        cases htr : truthy r with
        | false => simp [decode_json, hr, htr] at hs
        | true =>
          cases r with
          | obj rm =>
            cases he : dlookup rm "error" with
            | none => simp [decode_json, hr, htr, he] at hs
            | some e =>
              cases hte : truthy e with
              | false => simp [decode_json, hr, htr, he, hte] at hs
              | true => exact ⟨rm, e, rfl, htr, he, hte⟩
          | null => simp [truthy] at htr
          | bool b => simp [decode_json, hr, htr] at hs
          | num n => simp [decode_json, hr, htr] at hs
          | str s2 => simp [decode_json, hr, htr] at hs
          | arr l => simp [decode_json, hr, htr] at hs
    · intro ⟨rm, e, hr, htr, he, hte⟩
      exact ⟨some ("Error while calling JSON Zoho api:" ++ pyToStr e),
        by simp [decode_json, hr, htr, he, hte]⟩
  · intro rm e hr htr he hte
    simp [decode_json, hr, htr, he, hte]
  · intro hfalsy
    cases hr : dlookup m "response" with
    | none => simp [decode_json, hr]
    | some r => simp [decode_json, hr, hfalsy r hr]
  · intro rm hr hferr
    cases htr : truthy (JVal.obj rm) with
    | false => simp [decode_json, hr, htr]
    | true =>
      cases he : dlookup rm "error" with
      | none => simp [decode_json, hr, htr, he]
      | some e => simp [decode_json, hr, htr, he, hferr e he]

/-- C8, counterexample: in
`{"response": {"error": 0}}` the top-level object has a `response`
member that itself has an `error` member, yet `decode_json` returns the
structure unchanged instead of raising, because `0` is falsy. -/
theorem c8_falsy_error_cex :
    dlookup [("error", JVal.num 0)] "error" = some (JVal.num 0) ∧
    decode_json (.obj [("response", JVal.obj [("error", JVal.num 0)])]) =
      .ok (.obj [("response", JVal.obj [("error", JVal.num 0)])]) :=
  ⟨rfl, rfl⟩

/-- C8, witness for the amended theorem: a truthy error raises the
domain error embedding its string representation, and an object without
a `response` member is returned unchanged. -/
theorem c8_decode_json_witness :
    decode_json (.obj [("response", JVal.obj [("error", JVal.str "boom")])]) =
      .error (.zohoException
        (some ("Error while calling JSON Zoho api:" ++ pyToStr (JVal.str "boom")))) ∧
    decode_json (.obj [("foo", JVal.num 1)]) = .ok (.obj [("foo", JVal.num 1)]) :=
  ⟨(c8_decode_json_amended [("response", JVal.obj [("error", JVal.str "boom")])]).2.1
      [("error", JVal.str "boom")] (JVal.str "boom") rfl rfl rfl rfl,
   (c8_decode_json_amended [("foo", JVal.num 1)]).2.2.1
      (fun r hr => by simp [dlookup] at hr)⟩

theorem parseLines_skip_ok (data : String) (rest : List String) :
    ∀ pre : List String, ∀ out : TDict,
      (∀ l ∈ pre, startsWithHash l = true ∨ isBlank l = true ∨
        l.toList.count '=' = 1) →
      ∃ out2, parseLines data (pre ++ rest) out = parseLines data rest out2 := by
  intro pre
  induction pre with
  | nil =>
    intro out _
    exact ⟨out, rfl⟩
  | cons line pre2 ih =>
    intro out hpre
    have hl := hpre line (by simp)
    rcases hl with hc | hb | h1
    · obtain ⟨out2, hout2⟩ := ih out (fun l hl2 => hpre l (by simp [hl2]))
      exact ⟨out2, by simp [parseLines, hc, hout2]⟩
    · by_cases hc : startsWithHash line
      · obtain ⟨out2, hout2⟩ := ih out (fun l hl2 => hpre l (by simp [hl2]))
        exact ⟨out2, by simp [parseLines, hc, hout2]⟩
      · obtain ⟨out2, hout2⟩ := ih out (fun l hl2 => hpre l (by simp [hl2]))
        exact ⟨out2, by simp [parseLines, hc, hb, hout2]⟩
    · by_cases hc : startsWithHash line
      · obtain ⟨out2, hout2⟩ := ih out (fun l hl2 => hpre l (by simp [hl2]))
        exact ⟨out2, by simp [parseLines, hc, hout2]⟩
      · by_cases hb : isBlank line
        · obtain ⟨out2, hout2⟩ := ih out (fun l hl2 => hpre l (by simp [hl2]))
          exact ⟨out2, by simp [parseLines, hc, hb, hout2]⟩
        · have hmem : '=' ∈ line.toList :=
            List.count_pos_iff.mp (by omega)
          have hmem2 : '=' ∈ line.data := hmem
          have hlen : (pySplit '=' line).length = 2 := by
            rw [pySplit_length, h1]
          obtain ⟨k, v, hkv⟩ := List.length_eq_two.mp hlen
          obtain ⟨out2, hout2⟩ :=
            ih (dictSet out k v) (fun l hl2 => hpre l (by simp [hl2]))
          exact ⟨out2, by simp [parseLines, hc, hb, hmem2, hkv, hout2]⟩

theorem parseLines_filter (data : String) (lines : List String) (out : TDict) :
    parseLines data
      (lines.filter (fun l => !(startsWithHash l) && !(isBlank l))) out =
    parseLines data lines out := by
  induction lines generalizing out with
  | nil => rfl
  | cons line rest ih =>
    by_cases hc : startsWithHash line
    · simp [List.filter_cons, parseLines, hc, ih]
    · by_cases hb : isBlank line
      · simp [List.filter_cons, parseLines, hc, hb, ih]
      · by_cases hm : '=' ∈ line.data
        · rcases h2 : pySplit '=' line with _ | ⟨k, _ | ⟨v, _ | ⟨w, tl⟩⟩⟩
          · simp [List.filter_cons, parseLines, hc, hb, hm, h2]
          · simp [List.filter_cons, parseLines, hc, hb, hm, h2]
          · simp [List.filter_cons, parseLines, hc, hb, hm, h2, ih]
          · simp [List.filter_cons, parseLines, hc, hb, hm, h2]
        · simp [List.filter_cons, parseLines, hc, hb, hm]

/-- C4 (amended): parsing a ticket-response body containing a
non-comment, non-blank line without `=` fails with the domain error
`"Bad ticket data:" + body`, provided each earlier non-comment,
non-blank line has exactly one `=` (an earlier line with two or more `=`
raises `ValueError` first); and comment lines and blank lines are
skipped, contributing nothing: removing them never changes the result
of parsing. -/
theorem c4_malformed_line_amended (data bad : String) (pre post : List String)
    (hsplit : pySplit newlineChar data = pre ++ bad :: post)
    (hcomment : startsWithHash bad = false)
    (hblank : isBlank bad = false)
    (hnoeq : bad.toList.count '=' = 0)
    (hpre : ∀ l ∈ pre, startsWithHash l = true ∨ isBlank l = true ∨
      l.toList.count '=' = 1) :
    parse_ticket_response data =
      .error (.zohoException (some ("Bad ticket data:" ++ data))) ∧
    (∀ d2 lines out, parseLines d2
        (lines.filter (fun l => !(startsWithHash l) && !(isBlank l))) out =
      parseLines d2 lines out) := by
  constructor
  · obtain ⟨out2, hout2⟩ := parseLines_skip_ok data (bad :: post) pre [] hpre
    have hmem : '=' ∉ bad.toList := List.count_eq_zero.mp hnoeq
    have hmem2 : '=' ∉ bad.data := hmem
    rw [parse_ticket_response, hsplit, hout2]
    simp [parseLines, hcomment, hblank, hmem2]
  · exact fun d2 lines out => parseLines_filter d2 lines out

/-- C4, counterexample: the body `"a=b=c\nfoo"` contains the
non-comment, non-blank, `=`-free line `"foo"`, yet parsing fails with
`ValueError` (raised first on the two-`=` line `"a=b=c"`), not with a
domain error, so the claim quantified over every such body is false. -/
theorem c4_valueerror_first_cex :
    parse_ticket_response "a=b=c\nfoo" =
      .error (.valueError "too many values to unpack (expected 2)") ∧
    "foo" ∈ pySplit newlineChar "a=b=c\nfoo" ∧
    startsWithHash "foo" = false ∧ isBlank "foo" = false ∧
    "foo".toList.count '=' = 0 := by
  refine ⟨rfl, ?_, rfl, rfl, rfl⟩
  have h : pySplit newlineChar "a=b=c\nfoo" = ["a=b=c", "foo"] := rfl
  rw [h]
  simp

/-- C4, witness for the amended theorem: `"X=1\nfoo"` fails with the
domain error, and filtering out comment and blank lines is sound. -/
theorem c4_malformed_line_witness :
    parse_ticket_response "X=1\nfoo" =
      .error (.zohoException (some ("Bad ticket data:" ++ "X=1\nfoo"))) :=
  (c4_malformed_line_amended "X=1\nfoo" "foo" ["X=1"] [] rfl rfl rfl rfl
    (by
      intro l hl
      simp at hl
      subst hl
      right
      right
      rfl)).1

/-- C10 (amended): a non-comment, non-blank line with two or more `=`
characters raises `ValueError` from tuple unpacking (the line is split
on every `=` without a maximum split count) rather than the domain
exception, provided each earlier non-comment, non-blank line has exactly
one `=` (an earlier `=`-free line raises the domain exception first). -/
theorem c10_unpack_valueerror_amended (data bad : String)
    (pre post : List String)
    (hsplit : pySplit newlineChar data = pre ++ bad :: post)
    (hcomment : startsWithHash bad = false)
    (hblank : isBlank bad = false)
    (hmany : 2 ≤ bad.toList.count '=')
    (hpre : ∀ l ∈ pre, startsWithHash l = true ∨ isBlank l = true ∨
      l.toList.count '=' = 1) :
    parse_ticket_response data =
      .error (.valueError "too many values to unpack (expected 2)") := by
  obtain ⟨out2, hout2⟩ := parseLines_skip_ok data (bad :: post) pre [] hpre
  have hmem : '=' ∈ bad.toList := List.count_pos_iff.mp (by omega)
  have hmem2 : '=' ∈ bad.data := hmem
  have hlen : 3 ≤ (pySplit '=' bad).length := by
    rw [pySplit_length]
    omega
  obtain ⟨a, b, c, tl, habc⟩ : ∃ a b c tl, pySplit '=' bad = a :: b :: c :: tl := by
    rcases hsp : pySplit '=' bad with _ | ⟨a, _ | ⟨b, _ | ⟨c, tl⟩⟩⟩
    · rw [hsp] at hlen
      simp at hlen
    · rw [hsp] at hlen
      simp at hlen
    · rw [hsp] at hlen
      simp at hlen
    · exact ⟨a, b, c, tl, rfl⟩
  rw [parse_ticket_response, hsplit, hout2]
  simp [parseLines, hcomment, hblank, hmem2, habc]

/-- C10, counterexample: the body `"foo\na=b=c"` contains the line
`"a=b=c"` with two `=` characters, yet parsing raises the domain
exception (on the earlier `=`-free line `"foo"`), not `ValueError`, so
the claim quantified over every such body is false. -/
theorem c10_domain_error_first_cex :
    parse_ticket_response "foo\na=b=c" =
      .error (.zohoException (some ("Bad ticket data:" ++ "foo\na=b=c"))) ∧
    "a=b=c" ∈ pySplit newlineChar "foo\na=b=c" ∧
    startsWithHash "a=b=c" = false ∧ isBlank "a=b=c" = false ∧
    2 ≤ "a=b=c".toList.count '=' := by
  refine ⟨rfl, ?_, rfl, rfl, by decide⟩
  have h : pySplit newlineChar "foo\na=b=c" = ["foo", "a=b=c"] := rfl
  rw [h]
  simp

/-- C10, witness for the amended theorem: `"X=1\na=b=c"` raises
`ValueError` on the two-`=` line. -/
theorem c10_unpack_valueerror_witness :
    parse_ticket_response "X=1\na=b=c" =
      .error (.valueError "too many values to unpack (expected 2)") :=
  c10_unpack_valueerror_amended "X=1\na=b=c" "a=b=c" ["X=1"] [] rfl rfl rfl
    (by decide)
    (by
      intro l hl
      simp at hl
      subst hl
      right
      right
      rfl)
